import Mathlib

/-!
Verification development for the Nebula landing-page scripts
(`assets/js/countdown.js` and `assets/js/main.js`).

The JavaScript modules are shallowly embedded: every function below is a
direct transcription of the corresponding source function, with JavaScript
numbers restricted to the values that actually arise at each site
(integers-or-NaN for the countdown's millisecond arithmetic, exact
rationals-or-NaN-or-Infinity for the parallax/orb arithmetic), DOM elements
modelled as records of their observable fields, and DOM mutations recorded
as explicit operation traces.
-/

namespace Nebula

/- =========================================================
   JavaScript numbers as used by countdown.js: every value that
   flows through `tick` is either an integer number of
   milliseconds/seconds or NaN (from an invalid Date parse).
   ========================================================= -/

/-- A JavaScript number as it occurs in the countdown module:
an exact integer, or NaN (the result of `new Date(bad).getTime()`). -/
inductive JsInt where
  | nan : JsInt
  | int : Int → JsInt
deriving DecidableEq, Repr

/-- JavaScript subtraction `a - b`; NaN propagates. -/
def jsSub : JsInt → JsInt → JsInt
  | JsInt.int a, JsInt.int b => JsInt.int (a - b)
  | _, _ => JsInt.nan

/-- JavaScript comparison `a <= b`; any comparison with NaN is false. -/
def jsLe : JsInt → JsInt → Bool
  | JsInt.int a, JsInt.int b => decide (a ≤ b)
  | _, _ => false

/-- `Math.floor(a / k)` for a positive integer constant `k`
(the uses in `tick` are k = 1000, 86400, 3600, 60): floored division.
`Math.floor(NaN)` is NaN. -/
def jsFloorDiv (a : JsInt) (k : Int) : JsInt :=
  match a with
  | JsInt.nan => JsInt.nan
  | JsInt.int n => JsInt.int (Int.fdiv n k)

/-- The JavaScript remainder `a % k` (truncated, sign of the dividend);
`NaN % k` is NaN. -/
def jsMod (a : JsInt) (k : Int) : JsInt :=
  match a with
  | JsInt.nan => JsInt.nan
  | JsInt.int n => JsInt.int (Int.tmod n k)

/-- JavaScript strict equality `a === b` on numbers: `NaN === x` is
always false (so `NaN !== x` is always true). -/
def jsStrictEq : JsInt → JsInt → Bool
  | JsInt.int a, JsInt.int b => decide (a = b)
  | _, _ => false

/-- `String(n)` for a countdown number: `"NaN"` for NaN, decimal otherwise
(Lean's `Int` printing agrees with JavaScript on integers). -/
def jsNumToString : JsInt → String
  | JsInt.nan => "NaN"
  | JsInt.int n => toString n

/-- `String.prototype.padStart(n, c)`. -/
def padStart (s : String) (n : Nat) (c : Char) : String :=
  if s.length < n then String.mk (List.replicate (n - s.length) c) ++ s else s

/-- countdown.js `pad2`: `(n) => String(n).padStart(2, '0')`. -/
def pad2 (n : JsInt) : String := padStart (jsNumToString n) 2 '0'

/- =========================================================
   Digit elements and their DOM mutations.
   ========================================================= -/

/-- One observable DOM write performed on a digit element. -/
inductive DomOp where
  | setText (s : String)
  | removeFlipClass
  | reflow
  | addFlipClass
deriving DecidableEq, Repr

/-- A countdown digit element: its text content, whether it currently
carries the `is-flipping` class, and the trace of writes made to it. -/
structure DigitEl where
  text : String
  flipping : Bool
  ops : List DomOp
deriving DecidableEq, Repr

/-- `el.textContent = s` (always writes, recorded in the trace). -/
def setTextEl (el : DigitEl) (s : String) : DigitEl :=
  { el with text := s, ops := el.ops ++ [DomOp.setText s] }

/-- countdown.js `triggerFlip`: remove the `is-flipping` class, force a
reflow, then re-add the class, restarting the CSS animation. -/
def triggerFlip (el : DigitEl) : DigitEl :=
  let el1 := { el with flipping := false, ops := el.ops ++ [DomOp.removeFlipClass] }
  let el2 := { el1 with ops := el1.ops ++ [DomOp.reflow] }
  { el2 with flipping := true, ops := el2.ops ++ [DomOp.addFlipClass] }

/-- countdown.js `updateDigit`: write text and retrigger the flip
animation only when `newVal !== oldVal`; always returns `newVal`. -/
def updateDigit (el : DigitEl) (newVal oldVal : JsInt) : DigitEl × JsInt :=
  if jsStrictEq newVal oldVal then (el, newVal)
  else (triggerFlip (setTextEl el (pad2 newVal)), newVal)

/- =========================================================
   The countdown state machine (countdown.js `init` / `tick`).
   ========================================================= -/

/-- The state owned by countdown.js `init`: the four digit elements, the
`prev` record, the container's `aria-label` (if the module has set one),
and the `setInterval` bookkeeping.  `intervalAssigned` records whether
`intervalId = setInterval(tick, 1000)` has executed (before the first,
synchronous, call of `tick` it has not, so `intervalId` is `undefined`
there); `intervalActive` records whether the repeating schedule is
currently live. -/
structure CdState where
  daysEl : DigitEl
  hoursEl : DigitEl
  minsEl : DigitEl
  secsEl : DigitEl
  prevD : JsInt
  prevH : JsInt
  prevM : JsInt
  prevS : JsInt
  ariaLabel : Option String
  intervalAssigned : Bool
  intervalActive : Bool
deriving DecidableEq, Repr

/-- `clearInterval(intervalId)`: a no-op while `intervalId` is still
`undefined` (first synchronous tick), otherwise cancels the schedule. -/
def clearIntervalOn (st : CdState) : CdState :=
  if st.intervalAssigned then { st with intervalActive := false } else st

/-- countdown.js `tick`, parameterised by the parsed target timestamp
(`new Date(...).getTime()`, NaN when the attribute is unparseable) and
the current wall-clock time `Date.now()` in milliseconds. -/
def tick (targetMs : JsInt) (nowMs : Int) (st : CdState) : CdState :=
  let diff := jsSub targetMs (JsInt.int nowMs)
  if jsLe diff (JsInt.int 0) then
    let st1 := clearIntervalOn st
    { st1 with
      secsEl := setTextEl st1.secsEl "00"
      minsEl := setTextEl st1.minsEl "00"
      hoursEl := setTextEl st1.hoursEl "00"
      daysEl := setTextEl st1.daysEl "00"
      ariaLabel := some "We have launched!" }
  else
    let totalSecs := jsFloorDiv diff 1000
    let d := jsFloorDiv totalSecs 86400
    let h := jsFloorDiv (jsMod totalSecs 86400) 3600
    let m := jsFloorDiv (jsMod totalSecs 3600) 60
    let s := jsMod totalSecs 60
    let rd := updateDigit st.daysEl d st.prevD
    let rh := updateDigit st.hoursEl h st.prevH
    let rm := updateDigit st.minsEl m st.prevM
    let rs := updateDigit st.secsEl s st.prevS
    { st with
      daysEl := rd.1, prevD := rd.2
      hoursEl := rh.1, prevH := rh.2
      minsEl := rm.1, prevM := rm.2
      secsEl := rs.1, prevS := rs.2 }

/-- The state right after countdown.js `init` locates the elements:
`prev = { d: -1, h: -1, m: -1, s: -1 }`, no label set by the module,
`intervalId` unassigned, no schedule running. -/
def cdInitState (d0 h0 m0 s0 : DigitEl) : CdState :=
  { daysEl := d0, hoursEl := h0, minsEl := m0, secsEl := s0
    prevD := JsInt.int (-1), prevH := JsInt.int (-1)
    prevM := JsInt.int (-1), prevS := JsInt.int (-1)
    ariaLabel := none
    intervalAssigned := false
    intervalActive := false }

/-- The tail of countdown.js `init`: `tick()` runs synchronously (with
`intervalId` still `undefined`), then `intervalId = setInterval(tick, 1000)`
assigns the handle and starts the repeating schedule unconditionally. -/
def cdStart (targetMs : JsInt) (t0 : Int) (d0 h0 m0 s0 : DigitEl) : CdState :=
  let st1 := tick targetMs t0 (cdInitState d0 h0 m0 s0)
  { st1 with intervalAssigned := true, intervalActive := true }

/-- The per-second schedule: at each listed wall-clock time the host fires
`tick` if (and only if) the interval is still live. -/
def cdRun (targetMs : JsInt) (times : List Int) (st : CdState) : CdState :=
  match times with
  | [] => st
  | t :: rest =>
      cdRun targetMs rest (if st.intervalActive then tick targetMs t st else st)

/-- How many scheduled ticks actually execute over the listed times. -/
def cdTickCount (targetMs : JsInt) (times : List Int) (st : CdState) : Nat :=
  match times with
  | [] => 0
  | t :: rest =>
      if st.intervalActive then 1 + cdTickCount targetMs rest (tick targetMs t st)
      else cdTickCount targetMs rest st

/-- A blank digit element (text empty, no class, no writes yet). -/
def cdElBlank : DigitEl := { text := "", flipping := false, ops := [] }

/- =========================================================
   main.js Utils: email validation.
   `isValidEmail = (email) => /^[^\s@]+@[^\s@]+\.[^\s@]{2,}$/.test(email.trim())`
   ========================================================= -/

/-- The JavaScript `\s` character class (`String.prototype.trim` removes
the same set from both ends). -/
def isJsWhitespace (c : Char) : Bool :=
  c = ' ' || c = '\t' || c = '\n' || c.toNat = 11 || c.toNat = 12 || c = '\r' ||
  c.toNat = 0xa0 || c.toNat = 0x1680 ||
  (decide (0x2000 ≤ c.toNat) && decide (c.toNat ≤ 0x200a)) ||
  c.toNat = 0x2028 || c.toNat = 0x2029 || c.toNat = 0x202f ||
  c.toNat = 0x205f || c.toNat = 0x3000 || c.toNat = 0xfeff

/-- `String.prototype.trim` on the underlying character list. -/
def jsTrimChars (cs : List Char) : List Char :=
  ((cs.dropWhile isJsWhitespace).reverse.dropWhile isJsWhitespace).reverse

/-- `String.prototype.trim`. -/
def jsTrim (s : String) : String := String.mk (jsTrimChars s.data)

/-- The regex character class `[^\s@]`: any character that is neither
whitespace nor `@`. -/
def isAtomChar (c : Char) : Bool := !isJsWhitespace c && !(c = '@')

/-- All ways of splitting a list into a prefix and a suffix. -/
def listSplits : List Char → List (List Char × List Char)
  | [] => [([], [])]
  | c :: cs => ([], c :: cs) :: (listSplits cs).map (fun p => (c :: p.1, p.2))

/-- Whole-string matching of the regex `^[^\s@]+@[^\s@]+\.[^\s@]{2,}$`:
some decomposition `a ++ '@' ++ b ++ '.' ++ c` with `a`, `b` nonempty
and `c` of length at least 2, all three parts drawn from `[^\s@]`. -/
def emailMatch (cs : List Char) : Bool :=
  (listSplits cs).any fun p =>
    match p.2 with
    | x :: rest =>
        decide (x = '@') && !p.1.isEmpty && p.1.all isAtomChar &&
        ((listSplits rest).any fun q =>
          match q.2 with
          | y :: tld =>
              decide (y = '.') && !q.1.isEmpty && q.1.all isAtomChar &&
              decide (2 ≤ tld.length) && tld.all isAtomChar
          | [] => false)
    | [] => false

/-- main.js `Utils.isValidEmail`. -/
def isValidEmail (email : String) : Bool := emailMatch (jsTrimChars email.data)

/-- Spec-side definition, for comparison with the regex: the characters
after the LAST dot of the string (the spec speaks of "at least 2
characters after the last dot of the domain"). -/
def specAfterLastDot (cs : List Char) : List Char :=
  (cs.reverse.takeWhile (fun c => !(c = '.'))).reverse

/- =========================================================
   main.js SubscribeForm: `setMessage`, `resetState`, `onSubmit`.
   The mocked remote call is a parameter: it either resolves to
   `{ok, message}` or rejects/throws.
   ========================================================= -/

/-- The kind of message currently shown (`is-success` / `is-error`
modifier class on the message element, or neither). -/
inductive MsgKind where
  | neutral
  | success
  | error
deriving DecidableEq, Repr

/-- The observable state of the subscribe form's collaborating elements. -/
structure FormSt where
  inputValue : String
  fieldValid : Bool
  fieldError : Bool
  message : String
  msgKind : MsgKind
  msgVisible : Bool
  btnDisabled : Bool
  btnText : String
  inputFocused : Bool
deriving DecidableEq, Repr

/-- main.js `setMessage(text, type)`: writes the text, resets the message
element's class list to the base class, then adds `is-<type>` and
`is-visible` when a type is given. -/
def setMessage (st : FormSt) (text : String) (kind : MsgKind) : FormSt :=
  if kind = MsgKind.neutral then
    { st with message := text, msgKind := MsgKind.neutral, msgVisible := false }
  else
    { st with message := text, msgKind := kind, msgVisible := true }

/-- main.js `resetState`: clears `is-valid` / `is-error` on the field
wrapper and blanks the message. -/
def resetState (st : FormSt) : FormSt :=
  setMessage { st with fieldValid := false, fieldError := false } "" MsgKind.neutral

/-- Outcome of one `sendToApi(email)` call: the promise resolves with
`{ok, message}`, or it rejects / the `await` throws. -/
inductive ApiOutcome where
  | resolved (ok : Bool) (message : String)
  | thrown
deriving DecidableEq, Repr

/-- main.js `onSubmit`, given the outcome the remote call would produce.
Returns the final element state paired with whether `sendToApi` was
actually invoked. -/
def onSubmit (outcome : ApiOutcome) (st0 : FormSt) : FormSt × Bool :=
  let st := resetState st0
  let email := jsTrim st.inputValue
  if email = "" then
    let st := setMessage { st with fieldError := true }
      "Please enter your email address." MsgKind.error
    ({ st with inputFocused := true }, false)
  else if !isValidEmail email then
    let st := setMessage { st with fieldError := true }
      "Please enter a valid email address." MsgKind.error
    ({ st with inputFocused := true }, false)
  else
    let st := { st with btnDisabled := true, btnText := "Sending…" }
    let st := setMessage st "Transmitting signal into the cosmos…" MsgKind.neutral
    let st := { st with msgVisible := true }
    let st :=
      match outcome with
      | ApiOutcome.resolved true msg =>
          let st := setMessage { st with fieldValid := true } msg MsgKind.success
          { st with inputValue := "" }
      | ApiOutcome.resolved false msg =>
          setMessage { st with fieldError := true } msg MsgKind.error
      | ApiOutcome.thrown =>
          setMessage { st with fieldError := true }
            "Connection lost. Please check your network and retry." MsgKind.error
    ({ st with btnDisabled := false, btnText := "Notify Me" }, true)

/-- An idle form state with a given input value (other fields as the page
presents them before any interaction). -/
def formStWith (input : String) : FormSt :=
  { inputValue := input, fieldValid := false, fieldError := false
    message := "", msgKind := MsgKind.neutral, msgVisible := false
    btnDisabled := false, btnText := "Notify Me", inputFocused := false }

/- =========================================================
   main.js ParallaxField: the lerp smoothing loop.
   JavaScript number arithmetic is modelled over the exact
   rationals (the idealisation of the double arithmetic).
   ========================================================= -/

/-- main.js `lerp`: `(a, b, t) => a + (b - a) * t`. -/
def lerp (a b t : ℚ) : ℚ := a + (b - a) * t

/-- main.js `LERP`, the fixed smoothing coefficient. -/
def LERP : ℚ := 0.065

/-- One frame of the `animate` loop acting on the `(currentX, currentY)`
pair for a fixed `(targetX, targetY)` pair. -/
def animateStep (current target : ℚ × ℚ) : ℚ × ℚ :=
  (lerp current.1 target.1 LERP, lerp current.2 target.2 LERP)

/-- The current offset after `n` frames with a constant target, and with
general coefficient `t` (the source instantiates `t := LERP`). -/
def lerpIter (t target c0 : ℚ) : ℕ → ℚ
  | 0 => c0
  | n + 1 => lerp (lerpIter t target c0 n) target t

/- =========================================================
   main.js ParallaxField: listener / frame-handle lifecycle
   (`init` / `destroy`).
   ========================================================= -/

/-- The environment `ParallaxField.init` probes: how many elements match
`.orb[data-depth], .geo[data-depth]`, and whether `(hover: none)` holds. -/
structure ParallaxEnv where
  depthElemCount : Nat
  touchOnly : Bool
deriving DecidableEq, Repr

/-- The module-owned lifecycle state: whether each listener is attached
and the pending `requestAnimationFrame` handle (`none` = `undefined`,
i.e. `init` never started the loop). -/
structure ParallaxSt where
  mouseListener : Bool
  resizeListener : Bool
  rafId : Option Nat
deriving DecidableEq, Repr

/-- Module state at script load: nothing attached, `rafId` undefined. -/
def parallaxInitial : ParallaxSt :=
  { mouseListener := false, resizeListener := false, rafId := none }

/-- `window.removeEventListener`: detaches the listener when attached and
silently does nothing otherwise; it never fails. -/
def removeListener (_attached : Bool) : Bool := false

/-- `cancelAnimationFrame(h)`: cancels the pending request when `h` is a
live handle and silently does nothing when `h` is `undefined` or stale;
it never fails. -/
def cancelFrame (_h : Option Nat) : Option Nat := none

/-- main.js `ParallaxField.init`: a silent no-op when no depth-tagged
element exists or the device is touch-only; otherwise attaches both
listeners and requests the first animation frame. -/
def parallaxInit (env : ParallaxEnv) (st : ParallaxSt) : ParallaxSt :=
  if env.depthElemCount = 0 || env.touchOnly then st
  else { st with mouseListener := true, resizeListener := true, rafId := some 0 }

/-- main.js `ParallaxField.destroy`: removes both listeners and cancels
the pending frame request, unconditionally. -/
def parallaxDestroy (st : ParallaxSt) : ParallaxSt :=
  { mouseListener := removeListener st.mouseListener
    resizeListener := removeListener st.resizeListener
    rafId := cancelFrame st.rafId }

/- =========================================================
   main.js ParallaxField: per-element depth and offsets.
   `const depth = parseFloat(el.dataset.depth || 0.05);`
   `const dx = currentX * depth * 80;`
   Values here may be NaN or Infinity, so we use a richer
   JavaScript-number model.
   ========================================================= -/

/-- A JavaScript number as produced by `parseFloat` and the offset
arithmetic: NaN, a signed infinity, or an exact finite value. -/
inductive JsNum where
  | nan : JsNum
  | inf : Bool → JsNum
  | num : ℚ → JsNum
deriving DecidableEq, Repr

/-- JavaScript multiplication on such values (`NaN` absorbs;
`±Infinity * 0` is NaN; otherwise signs multiply). -/
def jsMulNum : JsNum → JsNum → JsNum
  | JsNum.nan, _ => JsNum.nan
  | _, JsNum.nan => JsNum.nan
  | JsNum.inf s, JsNum.inf t => JsNum.inf (xor s t)
  | JsNum.inf s, JsNum.num b =>
      if b = 0 then JsNum.nan else JsNum.inf (xor s (decide (b < 0)))
  | JsNum.num a, JsNum.inf t =>
      if a = 0 then JsNum.nan else JsNum.inf (xor t (decide (a < 0)))
  | JsNum.num a, JsNum.num b => JsNum.num (a * b)

/-- ASCII decimal digit test. -/
def isAsciiDigit (c : Char) : Bool := decide ('0' ≤ c) && decide (c ≤ '9')

/-- Value of a run of decimal digits. -/
def digitsToNat (ds : List Char) : Nat :=
  ds.foldl (fun a c => 10 * a + (c.toNat - '0'.toNat)) 0

/-- The optional exponent part of a decimal literal (`e`/`E` already
consumed): a signed digit run; an ill-formed exponent contributes
nothing (parseFloat keeps the longest valid prefix). -/
def parseExp (cs : List Char) : Int :=
  let signed : Bool × List Char :=
    match cs with
    | '-' :: rest => (true, rest)
    | '+' :: rest => (false, rest)
    | _ => (false, cs)
  let ds := signed.2.takeWhile isAsciiDigit
  if ds.isEmpty then 0
  else if signed.1 then -(digitsToNat ds : Int) else (digitsToNat ds : Int)

/-- The syntactic outcome of a `parseFloat` scan: no valid prefix, an
`Infinity` literal, or a finite literal given by its sign, integer-part
value, fraction-part value and digit count, and exponent. -/
inductive RawFloat where
  | nan : RawFloat
  | inf : Bool → RawFloat
  | fin : Bool → Nat → Nat → Nat → Int → RawFloat
deriving DecidableEq, Repr

/-- The scanning phase of JavaScript `parseFloat`: skip leading
whitespace, read an optional sign, accept `Infinity`, otherwise read the
longest `digits [. digits] [e|E exponent]` prefix (needing at least one
mantissa digit); no such prefix means NaN. -/
def parseFloatRaw (cs0 : List Char) : RawFloat :=
  let cs1 := cs0.dropWhile isJsWhitespace
  let signed : Bool × List Char :=
    match cs1 with
    | '-' :: rest => (true, rest)
    | '+' :: rest => (false, rest)
    | _ => (false, cs1)
  let neg := signed.1
  let cs2 := signed.2
  if ("Infinity".data).isPrefixOf cs2 then RawFloat.inf neg
  else
    let intDs := cs2.takeWhile isAsciiDigit
    let r1 := cs2.dropWhile isAsciiDigit
    let fracPart : List Char × List Char :=
      match r1 with
      | '.' :: rest => (rest.takeWhile isAsciiDigit, rest.dropWhile isAsciiDigit)
      | _ => ([], r1)
    let fracDs := fracPart.1
    let r2 := fracPart.2
    if intDs.isEmpty && fracDs.isEmpty then RawFloat.nan
    else
      let e : Int :=
        match r2 with
        | 'e' :: rest => parseExp rest
        | 'E' :: rest => parseExp rest
        | _ => 0
      RawFloat.fin neg (digitsToNat intDs) (digitsToNat fracDs) fracDs.length e

/-- The value denoted by a scanned literal (exact-rational idealisation
of the double it would round to). -/
def rawToJsNum : RawFloat → JsNum
  | RawFloat.nan => JsNum.nan
  | RawFloat.inf neg => JsNum.inf neg
  | RawFloat.fin neg ip fp fracLen e =>
      let mag : ℚ := ((ip : ℚ) + (fp : ℚ) / (10 : ℚ) ^ fracLen) * (10 : ℚ) ^ e
      JsNum.num (if neg then -mag else mag)

/-- JavaScript `parseFloat` on a character list. -/
def parseFloatChars (cs : List Char) : JsNum := rawToJsNum (parseFloatRaw cs)

/-- JavaScript `parseFloat` on a string. -/
def parseFloat (s : String) : JsNum := parseFloatChars s.data

/-- `parseFloat(el.dataset.depth || 0.05)`: when the attribute is absent
(`undefined`) or the empty string, the `||` yields the number `0.05`,
which `parseFloat` receives as the string `"0.05"`; otherwise the
attribute string itself is parsed. -/
def depthOf (attr : Option String) : JsNum :=
  match attr with
  | none => parseFloat "0.05"
  | some s => if s = "" then parseFloat "0.05" else parseFloat s

/-- One axis of the per-element offset computed in `animate`:
`current * depth * 80` (left-associated, as in the source). -/
def elemOffset (current : ℚ) (attr : Option String) : JsNum :=
  jsMulNum (jsMulNum (JsNum.num current) (depthOf attr)) (JsNum.num 80)

/-- The `elements.forEach` body of one `animate` frame: the pair of axis
offsets for every depth-tagged element. -/
def animateOffsets (currentX currentY : ℚ) (attrs : List (Option String)) :
    List (JsNum × JsNum) :=
  attrs.map (fun a => (elemOffset currentX a, elemOffset currentY a))

/- =========================================================
   main.js Utils.randBetween and OrbInit.
   ========================================================= -/

/-- main.js `Utils.randBetween(min, max)` with the `Math.random()` draw
`r` made explicit: `r * (max - min) + min`. -/
def randBetween (r min max : ℚ) : ℚ := r * (max - min) + min

/-- `Number.prototype.toFixed(1)` as a value: the decimal rounded to one
fractional digit, ties toward the larger value. -/
def toFixed1 (q : ℚ) : ℚ := ((⌊10 * q + 1 / 2⌋ : ℤ) : ℚ) / 10

/-- The two scalar parameters OrbInit writes for one element:
`--orb-duration: ${randBetween(10,26).toFixed(1)}s` and
`--orb-delay: -${randBetween(0,12).toFixed(1)}s`. -/
structure OrbParams where
  duration : ℚ
  delay : ℚ
deriving DecidableEq, Repr

/-- The OrbInit per-element body, with the two `Math.random()` draws made
explicit. -/
def orbApply (r1 r2 : ℚ) : OrbParams :=
  { duration := toFixed1 (randBetween r1 10 26)
    delay := -(toFixed1 (randBetween r2 0 12)) }


/- =========================================================
   Countdown theorems.
   ========================================================= -/


/- =========================================================
   Helper lemmas about the countdown model.
   ========================================================= -/

lemma updateDigit_snd (el : DigitEl) (n o : JsInt) : (updateDigit el n o).2 = n := by
  unfold updateDigit; split <;> rfl

lemma pad2_nan : pad2 JsInt.nan = "NaN" := by decide

lemma updateDigit_int (el : DigitEl) (n o : Int) :
    updateDigit el (JsInt.int n) (JsInt.int o) =
      (if n = o then el else triggerFlip (setTextEl el (pad2 (JsInt.int n))), JsInt.int n) := by
  by_cases h : n = o <;> simp [updateDigit, jsStrictEq, h]

lemma updateDigit_nan (el : DigitEl) (o : JsInt) :
    updateDigit el JsInt.nan o = (triggerFlip (setTextEl el "NaN"), JsInt.nan) := by
  have h : jsStrictEq JsInt.nan o = false := by cases o <;> rfl
  simp [updateDigit, h, pad2_nan]

lemma mutated_ne (el : DigitEl) (s : String) : triggerFlip (setTextEl el s) ≠ el := by
  intro hEq
  have h2 := congrArg (fun e => e.ops.length) hEq
  simp [triggerFlip, setTextEl] at h2

lemma tick_pos_fields (T t : Int) (st : CdState) (h : 0 < T - t) :
    (tick (JsInt.int T) t st).daysEl =
        (updateDigit st.daysEl (JsInt.int (((T - t).fdiv 1000).fdiv 86400)) st.prevD).1 ∧
    (tick (JsInt.int T) t st).prevD =
        JsInt.int (((T - t).fdiv 1000).fdiv 86400) ∧
    (tick (JsInt.int T) t st).hoursEl =
        (updateDigit st.hoursEl (JsInt.int ((((T - t).fdiv 1000).tmod 86400).fdiv 3600)) st.prevH).1 ∧
    (tick (JsInt.int T) t st).prevH =
        JsInt.int ((((T - t).fdiv 1000).tmod 86400).fdiv 3600) ∧
    (tick (JsInt.int T) t st).minsEl =
        (updateDigit st.minsEl (JsInt.int ((((T - t).fdiv 1000).tmod 3600).fdiv 60)) st.prevM).1 ∧
    (tick (JsInt.int T) t st).prevM =
        JsInt.int ((((T - t).fdiv 1000).tmod 3600).fdiv 60) ∧
    (tick (JsInt.int T) t st).secsEl =
        (updateDigit st.secsEl (JsInt.int (((T - t).fdiv 1000).tmod 60)) st.prevS).1 ∧
    (tick (JsInt.int T) t st).prevS =
        JsInt.int (((T - t).fdiv 1000).tmod 60) ∧
    (tick (JsInt.int T) t st).ariaLabel = st.ariaLabel ∧
    (tick (JsInt.int T) t st).intervalActive = st.intervalActive ∧
    (tick (JsInt.int T) t st).intervalAssigned = st.intervalAssigned := by
  have hle : jsLe (JsInt.int (T - t)) (JsInt.int 0) = false := by
    simp [jsLe]; omega
  simp [tick, jsSub, hle, jsFloorDiv, jsMod, updateDigit_snd]

lemma tick_fin_fields (T : JsInt) (t : Int) (st : CdState)
    (h : jsLe (jsSub T (JsInt.int t)) (JsInt.int 0) = true) :
    (tick T t st).daysEl = setTextEl st.daysEl "00" ∧
    (tick T t st).hoursEl = setTextEl st.hoursEl "00" ∧
    (tick T t st).minsEl = setTextEl st.minsEl "00" ∧
    (tick T t st).secsEl = setTextEl st.secsEl "00" ∧
    (tick T t st).ariaLabel = some "We have launched!" ∧
    (tick T t st).intervalAssigned = st.intervalAssigned ∧
    (tick T t st).intervalActive =
      (if st.intervalAssigned then false else st.intervalActive) ∧
    (tick T t st).prevD = st.prevD ∧ (tick T t st).prevH = st.prevH ∧
    (tick T t st).prevM = st.prevM ∧ (tick T t st).prevS = st.prevS := by
  by_cases ha : st.intervalAssigned <;>
    simp [tick, h, clearIntervalOn, ha]

lemma tick_nan_fields (t : Int) (st : CdState) :
    (tick JsInt.nan t st).daysEl = triggerFlip (setTextEl st.daysEl "NaN") ∧
    (tick JsInt.nan t st).hoursEl = triggerFlip (setTextEl st.hoursEl "NaN") ∧
    (tick JsInt.nan t st).minsEl = triggerFlip (setTextEl st.minsEl "NaN") ∧
    (tick JsInt.nan t st).secsEl = triggerFlip (setTextEl st.secsEl "NaN") ∧
    (tick JsInt.nan t st).prevD = JsInt.nan ∧
    (tick JsInt.nan t st).ariaLabel = st.ariaLabel ∧
    (tick JsInt.nan t st).intervalActive = st.intervalActive ∧
    (tick JsInt.nan t st).intervalAssigned = st.intervalAssigned := by
  have hle : jsLe JsInt.nan (JsInt.int 0) = false := rfl
  simp [tick, jsSub, hle, jsFloorDiv, jsMod, updateDigit_nan]

lemma cdRun_inactive (T : JsInt) (times : List Int) (st : CdState)
    (h : st.intervalActive = false) : cdRun T times st = st := by
  induction times with
  | nil => rfl
  | cons t rest ih => simp [cdRun, h, ih]

lemma cdTickCount_inactive (T : JsInt) (times : List Int) (st : CdState)
    (h : st.intervalActive = false) : cdTickCount T times st = 0 := by
  induction times with
  | nil => rfl
  | cons t rest ih => simp [cdTickCount, h, ih]




lemma updateDigit_int_fst (el : DigitEl) (n o : Int) :
    (updateDigit el (JsInt.int n) (JsInt.int o)).1 =
      if n = o then el else triggerFlip (setTextEl el (pad2 (JsInt.int n))) := by
  by_cases h : n = o <;> simp [updateDigit, jsStrictEq, h]

lemma ite_mutated_eq_self (el : DigitEl) (n o : Int) :
    ((if n = o then el else triggerFlip (setTextEl el (pad2 (JsInt.int n)))) = el ↔ n = o) := by
  by_cases hc : n = o
  · simp [hc]
  · simp only [if_neg hc]
    exact iff_of_false (mutated_ne _ _) hc


/-- C1: on a Running tick (remaining > 0), with `R` the floored number of
remaining whole seconds, the four computed components are
`⌊R/86400⌋`, `⌊(R mod 86400)/3600⌋`, `⌊(R mod 3600)/60⌋` and `R mod 60`,
all by floored division; for `R = 90061` they are 1 day, 1 hour,
1 minute, 1 second. -/
theorem countdown_decomposition (T t : Int) (st : CdState) (h : 0 < T - t) :
    0 ≤ (T - t).fdiv 1000 ∧
    (tick (JsInt.int T) t st).prevD = JsInt.int (((T - t).fdiv 1000).fdiv 86400) ∧
    (tick (JsInt.int T) t st).prevH = JsInt.int ((((T - t).fdiv 1000) % 86400).fdiv 3600) ∧
    (tick (JsInt.int T) t st).prevM = JsInt.int ((((T - t).fdiv 1000) % 3600).fdiv 60) ∧
    (tick (JsInt.int T) t st).prevS = JsInt.int (((T - t).fdiv 1000) % 60) ∧
    ((T - t).fdiv 1000 = 90061 →
      ((T - t).fdiv 1000).fdiv 86400 = 1 ∧
      (((T - t).fdiv 1000) % 86400).fdiv 3600 = 1 ∧
      (((T - t).fdiv 1000) % 3600).fdiv 60 = 1 ∧
      ((T - t).fdiv 1000) % 60 = 1) := by
  have hR : 0 ≤ (T - t).fdiv 1000 := by
    rw [Int.fdiv_eq_ediv _ (by norm_num)]; omega
  have hf := tick_pos_fields T t st h
  refine ⟨hR, hf.2.1, ?_, ?_, ?_, ?_⟩
  · rw [hf.2.2.2.1, Int.tmod_eq_emod hR (by norm_num)]
  · rw [hf.2.2.2.2.2.1, Int.tmod_eq_emod hR (by norm_num)]
  · rw [hf.2.2.2.2.2.2.2.1, Int.tmod_eq_emod hR (by norm_num)]
  · intro hEq; rw [hEq]; refine ⟨by decide, by decide, by decide, by decide⟩

theorem countdown_decomposition_witness :
    (0 : Int) < 90061000 - 0 ∧
    (tick (JsInt.int 90061000) 0
        (cdInitState cdElBlank cdElBlank cdElBlank cdElBlank)).prevD = JsInt.int 1 ∧
    (tick (JsInt.int 90061000) 0
        (cdInitState cdElBlank cdElBlank cdElBlank cdElBlank)).prevH = JsInt.int 1 ∧
    (tick (JsInt.int 90061000) 0
        (cdInitState cdElBlank cdElBlank cdElBlank cdElBlank)).prevM = JsInt.int 1 ∧
    (tick (JsInt.int 90061000) 0
        (cdInitState cdElBlank cdElBlank cdElBlank cdElBlank)).prevS = JsInt.int 1 := by
  have h := countdown_decomposition 90061000 0
    (cdInitState cdElBlank cdElBlank cdElBlank cdElBlank) (by decide)
  refine ⟨by decide, ?_, ?_, ?_, ?_⟩
  · rw [h.2.1]; decide
  · rw [h.2.2.1]; decide
  · rw [h.2.2.2.1]; decide
  · rw [h.2.2.2.2.1]; decide

/-- C4: on every Running tick, each of the four digit elements is
mutated (text rewritten, flip class removed and re-added) precisely when
its computed value differs from the previously rendered one; an
unchanged component's element is left untouched. -/
theorem digit_update_only_on_change (T t : Int) (st : CdState) (pd ph pm ps : Int)
    (hrun : 0 < T - t)
    (hd : st.prevD = JsInt.int pd) (hh : st.prevH = JsInt.int ph)
    (hm : st.prevM = JsInt.int pm) (hs : st.prevS = JsInt.int ps) :
    ((tick (JsInt.int T) t st).daysEl = st.daysEl ↔
        ((T - t).fdiv 1000).fdiv 86400 = pd) ∧
    ((tick (JsInt.int T) t st).hoursEl = st.hoursEl ↔
        (((T - t).fdiv 1000).tmod 86400).fdiv 3600 = ph) ∧
    ((tick (JsInt.int T) t st).minsEl = st.minsEl ↔
        (((T - t).fdiv 1000).tmod 3600).fdiv 60 = pm) ∧
    ((tick (JsInt.int T) t st).secsEl = st.secsEl ↔
        ((T - t).fdiv 1000).tmod 60 = ps) ∧
    (((T - t).fdiv 1000).fdiv 86400 ≠ pd →
      (tick (JsInt.int T) t st).daysEl =
        triggerFlip (setTextEl st.daysEl
          (pad2 (JsInt.int (((T - t).fdiv 1000).fdiv 86400))))) ∧
    ((((T - t).fdiv 1000).tmod 86400).fdiv 3600 ≠ ph →
      (tick (JsInt.int T) t st).hoursEl =
        triggerFlip (setTextEl st.hoursEl
          (pad2 (JsInt.int ((((T - t).fdiv 1000).tmod 86400).fdiv 3600))))) ∧
    ((((T - t).fdiv 1000).tmod 3600).fdiv 60 ≠ pm →
      (tick (JsInt.int T) t st).minsEl =
        triggerFlip (setTextEl st.minsEl
          (pad2 (JsInt.int ((((T - t).fdiv 1000).tmod 3600).fdiv 60))))) ∧
    (((T - t).fdiv 1000).tmod 60 ≠ ps →
      (tick (JsInt.int T) t st).secsEl =
        triggerFlip (setTextEl st.secsEl
          (pad2 (JsInt.int (((T - t).fdiv 1000).tmod 60))))) := by
  have hf := tick_pos_fields T t st hrun
  have hD := hf.1
  have hH := hf.2.2.1
  have hM := hf.2.2.2.2.1
  have hS := hf.2.2.2.2.2.2.1
  rw [hd, updateDigit_int_fst] at hD
  rw [hh, updateDigit_int_fst] at hH
  rw [hm, updateDigit_int_fst] at hM
  rw [hs, updateDigit_int_fst] at hS
  refine ⟨?_, ?_, ?_, ?_, ?_, ?_, ?_, ?_⟩
  · rw [hD]; exact ite_mutated_eq_self _ _ _
  · rw [hH]; exact ite_mutated_eq_self _ _ _
  · rw [hM]; exact ite_mutated_eq_self _ _ _
  · rw [hS]; exact ite_mutated_eq_self _ _ _
  · intro hne; rw [hD, if_neg hne]
  · intro hne; rw [hH, if_neg hne]
  · intro hne; rw [hM, if_neg hne]
  · intro hne; rw [hS, if_neg hne]

theorem digit_update_only_on_change_witness :
    ((0 : Int) < 61000 - 0 ∧
     (cdStart (JsInt.int 61000) 0 cdElBlank cdElBlank cdElBlank cdElBlank).prevD =
       JsInt.int 0 ∧
     (cdStart (JsInt.int 61000) 0 cdElBlank cdElBlank cdElBlank cdElBlank).prevH =
       JsInt.int 0 ∧
     (cdStart (JsInt.int 61000) 0 cdElBlank cdElBlank cdElBlank cdElBlank).prevM =
       JsInt.int 1 ∧
     (cdStart (JsInt.int 61000) 0 cdElBlank cdElBlank cdElBlank cdElBlank).prevS =
       JsInt.int 1) ∧
    ((tick (JsInt.int 61000) 1000
        (cdStart (JsInt.int 61000) 0 cdElBlank cdElBlank cdElBlank cdElBlank)).minsEl =
      (cdStart (JsInt.int 61000) 0 cdElBlank cdElBlank cdElBlank cdElBlank).minsEl ↔
      ((((61000 - 1000 : Int).fdiv 1000).tmod 3600).fdiv 60) = 1) := by
  constructor
  · exact ⟨by decide, by decide, by decide, by decide, by decide⟩
  · exact (digit_update_only_on_change 61000 1000
      (cdStart (JsInt.int 61000) 0 cdElBlank cdElBlank cdElBlank cdElBlank)
      0 0 1 1 (by decide) (by decide) (by decide) (by decide) (by decide)).2.2.1

end Nebula

namespace Nebula

lemma cdStart_int_fin_fields (T2 t0 : Int) (d0 h0 m0 s0 : DigitEl)
    (hfin : T2 - t0 ≤ 0) :
    (cdStart (JsInt.int T2) t0 d0 h0 m0 s0).intervalAssigned = true ∧
    (cdStart (JsInt.int T2) t0 d0 h0 m0 s0).intervalActive = true ∧
    (cdStart (JsInt.int T2) t0 d0 h0 m0 s0).daysEl.text = "00" ∧
    (cdStart (JsInt.int T2) t0 d0 h0 m0 s0).hoursEl.text = "00" ∧
    (cdStart (JsInt.int T2) t0 d0 h0 m0 s0).minsEl.text = "00" ∧
    (cdStart (JsInt.int T2) t0 d0 h0 m0 s0).secsEl.text = "00" ∧
    (cdStart (JsInt.int T2) t0 d0 h0 m0 s0).ariaLabel = some "We have launched!" := by
  have hle : jsLe (jsSub (JsInt.int T2) (JsInt.int t0)) (JsInt.int 0) = true := by
    simp [jsSub, jsLe]; omega
  have hf := tick_fin_fields (JsInt.int T2) t0 (cdInitState d0 h0 m0 s0) hle
  refine ⟨rfl, rfl, ?_, ?_, ?_, ?_, ?_⟩ <;>
    simp [cdStart, hf.1, hf.2.1, hf.2.2.1, hf.2.2.2.1, hf.2.2.2.2.1, setTextEl]

/-- C2 (amended): a *scheduled* tick that observes remaining ≤ 0 cancels
the repeating schedule, forces all four digit displays to "00", sets the
completion label, and no further tick ever occurs.  If instead the
*initial synchronous* tick (which runs before `intervalId` is assigned)
observes remaining ≤ 0, the displays and label are set the same way but
the interval is still started, and exactly one further tick occurs one
period later, which then cancels the schedule. -/
theorem countdown_finished_terminal (T : JsInt) (t : Int) (st : CdState)
    (hassigned : st.intervalAssigned = true)
    (hfin : jsLe (jsSub T (JsInt.int t)) (JsInt.int 0) = true) :
    ((tick T t st).intervalActive = false ∧
     (tick T t st).daysEl.text = "00" ∧
     (tick T t st).hoursEl.text = "00" ∧
     (tick T t st).minsEl.text = "00" ∧
     (tick T t st).secsEl.text = "00" ∧
     (tick T t st).ariaLabel = some "We have launched!" ∧
     (∀ times : List Int, cdRun T times (tick T t st) = tick T t st) ∧
     (∀ times : List Int, cdTickCount T times (tick T t st) = 0)) ∧
    (∀ (T2 t0 t1 : Int) (rest : List Int) (d0 h0 m0 s0 : DigitEl),
      T2 - t0 ≤ 0 → t0 ≤ t1 →
      (cdStart (JsInt.int T2) t0 d0 h0 m0 s0).intervalActive = true ∧
      (cdStart (JsInt.int T2) t0 d0 h0 m0 s0).daysEl.text = "00" ∧
      (cdStart (JsInt.int T2) t0 d0 h0 m0 s0).ariaLabel = some "We have launched!" ∧
      cdTickCount (JsInt.int T2) (t1 :: rest)
          (cdStart (JsInt.int T2) t0 d0 h0 m0 s0) = 1 ∧
      (cdRun (JsInt.int T2) (t1 :: rest)
          (cdStart (JsInt.int T2) t0 d0 h0 m0 s0)).intervalActive = false) := by
  constructor
  · have hf := tick_fin_fields T t st hfin
    have hactive : (tick T t st).intervalActive = false := by
      rw [hf.2.2.2.2.2.2.1, hassigned]; simp
    refine ⟨hactive, ?_, ?_, ?_, ?_, hf.2.2.2.2.1, ?_, ?_⟩
    · rw [hf.1]; rfl
    · rw [hf.2.1]; rfl
    · rw [hf.2.2.1]; rfl
    · rw [hf.2.2.2.1]; rfl
    · intro times; exact cdRun_inactive T times _ hactive
    · intro times; exact cdTickCount_inactive T times _ hactive
  · intro T2 t0 t1 rest d0 h0 m0 s0 hfin0 hmono
    have hs := cdStart_int_fin_fields T2 t0 d0 h0 m0 s0 hfin0
    have hle1 : jsLe (jsSub (JsInt.int T2) (JsInt.int t1)) (JsInt.int 0) = true := by
      simp [jsSub, jsLe]; omega
    have hf1 := tick_fin_fields (JsInt.int T2) t1
      (cdStart (JsInt.int T2) t0 d0 h0 m0 s0) hle1
    have hactive1 : (tick (JsInt.int T2) t1
        (cdStart (JsInt.int T2) t0 d0 h0 m0 s0)).intervalActive = false := by
      rw [hf1.2.2.2.2.2.2.1, hs.1]; simp
    refine ⟨hs.2.1, hs.2.2.1, hs.2.2.2.2.2.2, ?_, ?_⟩
    · show cdTickCount _ (t1 :: rest) _ = 1
      rw [cdTickCount]
      simp only [hs.2.1, if_true]
      rw [cdTickCount_inactive _ rest _ hactive1]
    · show (cdRun _ (t1 :: rest) _).intervalActive = false
      rw [cdRun]
      simp only [hs.2.1, if_true]
      rw [cdRun_inactive _ rest _ hactive1]
      exact hactive1

theorem countdown_finished_terminal_witness :
    ((cdStart (JsInt.int 0) 0 cdElBlank cdElBlank cdElBlank
        cdElBlank).intervalAssigned = true ∧
     jsLe (jsSub (JsInt.int 0) (JsInt.int 1000)) (JsInt.int 0) = true) ∧
    (tick (JsInt.int 0) 1000
      (cdStart (JsInt.int 0) 0 cdElBlank cdElBlank cdElBlank
        cdElBlank)).intervalActive = false := by
  refine ⟨⟨by decide, by decide⟩, ?_⟩
  exact (countdown_finished_terminal (JsInt.int 0) 1000
    (cdStart (JsInt.int 0) 0 cdElBlank cdElBlank cdElBlank cdElBlank)
    (by decide) (by decide)).1.1

/-- C2, as stated, is false at the initial synchronous tick: with the
target already reached at load time (target = load time = 0), the first
tick observes remaining ≤ 0, yet the schedule is running right after
`init` and one further tick executes at t = 1000. -/
theorem countdown_finished_counterexample :
    jsLe (jsSub (JsInt.int 0) (JsInt.int 0)) (JsInt.int 0) = true ∧
    (cdStart (JsInt.int 0) 0 cdElBlank cdElBlank cdElBlank
        cdElBlank).intervalActive = true ∧
    cdTickCount (JsInt.int 0) [1000]
      (cdStart (JsInt.int 0) 0 cdElBlank cdElBlank cdElBlank cdElBlank) = 1 := by
  decide

lemma nan_run_invariant (times : List Int) :
    ∀ st : CdState, st.intervalActive = true →
      (cdRun JsInt.nan times st).intervalActive = true ∧
      (cdRun JsInt.nan times st).ariaLabel = st.ariaLabel ∧
      cdTickCount JsInt.nan times st = times.length := by
  induction times with
  | nil => intro st h; exact ⟨h, rfl, rfl⟩
  | cons t rest ih =>
      intro st h
      have hf := tick_nan_fields t st
      have h2 : (tick JsInt.nan t st).intervalActive = true := by
        rw [hf.2.2.2.2.2.2.1]; exact h
      obtain ⟨ha, hb, hc⟩ := ih (tick JsInt.nan t st) h2
      refine ⟨?_, ?_, ?_⟩
      · rw [cdRun]; simp only [h, if_true]; exact ha
      · rw [cdRun]; simp only [h, if_true]
        rw [hb, hf.2.2.2.2.2.1]
      · rw [cdTickCount]; simp only [h, if_true]
        rw [hc]; simp [List.length_cons]; omega

/-- C10: with an unparseable target date the parsed timestamp is NaN;
every tick's remaining difference is NaN, the Finished branch (which
needs remaining ≤ 0) is never taken, the first tick writes "NaN" into
all four digit displays, and the once-per-second schedule runs forever:
every scheduled tick executes, the interval is never cancelled and no
completion label is ever set. -/
theorem countdown_nan_forever (t0 : Int) (d0 h0 m0 s0 : DigitEl) (times : List Int) :
    (∀ t : Int, jsSub JsInt.nan (JsInt.int t) = JsInt.nan) ∧
    (∀ t : Int, jsLe (jsSub JsInt.nan (JsInt.int t)) (JsInt.int 0) = false) ∧
    (cdStart JsInt.nan t0 d0 h0 m0 s0).daysEl.text = "NaN" ∧
    (cdStart JsInt.nan t0 d0 h0 m0 s0).hoursEl.text = "NaN" ∧
    (cdStart JsInt.nan t0 d0 h0 m0 s0).minsEl.text = "NaN" ∧
    (cdStart JsInt.nan t0 d0 h0 m0 s0).secsEl.text = "NaN" ∧
    (cdStart JsInt.nan t0 d0 h0 m0 s0).intervalActive = true ∧
    (cdRun JsInt.nan times (cdStart JsInt.nan t0 d0 h0 m0 s0)).intervalActive = true ∧
    (cdRun JsInt.nan times (cdStart JsInt.nan t0 d0 h0 m0 s0)).ariaLabel = none ∧
    cdTickCount JsInt.nan times (cdStart JsInt.nan t0 d0 h0 m0 s0) = times.length := by
  have htick := tick_nan_fields t0 (cdInitState d0 h0 m0 s0)
  have hstart_active : (cdStart JsInt.nan t0 d0 h0 m0 s0).intervalActive = true := rfl
  have hstart_label : (cdStart JsInt.nan t0 d0 h0 m0 s0).ariaLabel = none := by
    show (tick JsInt.nan t0 (cdInitState d0 h0 m0 s0)).ariaLabel = none
    rw [htick.2.2.2.2.2.1]; rfl
  obtain ⟨hrA, hrL, hrC⟩ :=
    nan_run_invariant times (cdStart JsInt.nan t0 d0 h0 m0 s0) hstart_active
  refine ⟨fun t => rfl, fun t => rfl, ?_, ?_, ?_, ?_, hstart_active, hrA, ?_, hrC⟩
  · show (tick JsInt.nan t0 (cdInitState d0 h0 m0 s0)).daysEl.text = "NaN"
    rw [htick.1]; rfl
  · show (tick JsInt.nan t0 (cdInitState d0 h0 m0 s0)).hoursEl.text = "NaN"
    rw [htick.2.1]; rfl
  · show (tick JsInt.nan t0 (cdInitState d0 h0 m0 s0)).minsEl.text = "NaN"
    rw [htick.2.2.1]; rfl
  · show (tick JsInt.nan t0 (cdInitState d0 h0 m0 s0)).secsEl.text = "NaN"
    rw [htick.2.2.2.1]; rfl
  · rw [hrL]; exact hstart_label




/- =========================================================
   Email validation and subscribe-form theorems.
   ========================================================= -/


lemma mem_listSplits : ∀ (cs : List Char) (p : List Char × List Char),
    p ∈ listSplits cs ↔ p.1 ++ p.2 = cs
  | [], p => by
      simp only [listSplits, List.mem_singleton]
      constructor
      · rintro rfl; rfl
      · intro h
        obtain ⟨h1, h2⟩ := List.append_eq_nil.mp h
        cases p
        simp_all
  | c :: cs, p => by
      simp only [listSplits, List.mem_cons, List.mem_map]
      constructor
      · rintro (rfl | ⟨q, hq, rfl⟩)
        · rfl
        · have := (mem_listSplits cs q).mp hq
          simp [this]
      · intro h
        cases p with
        | mk a b =>
          cases a with
          | nil => left; simp_all
          | cons x xs =>
            right
            simp only [List.cons_append, List.cons.injEq] at h
            exact ⟨(xs, b), (mem_listSplits cs (xs, b)).mpr h.2,
              by simp [h.1]⟩

lemma emailMatch_iff (cs : List Char) :
    emailMatch cs = true ↔
      ∃ a b c : List Char,
        cs = a ++ '@' :: (b ++ '.' :: c) ∧ a ≠ [] ∧ b ≠ [] ∧ 2 ≤ c.length ∧
        a.all isAtomChar = true ∧ b.all isAtomChar = true ∧
        c.all isAtomChar = true := by
  unfold emailMatch
  rw [List.any_eq_true]
  constructor
  · rintro ⟨p, hp, hmatch⟩
    rw [mem_listSplits] at hp
    obtain ⟨a, r⟩ := p
    cases r with
    | nil => simp at hmatch
    | cons x rest =>
        simp only [Bool.and_eq_true, decide_eq_true_eq, Bool.not_eq_true',
          List.any_eq_true] at hmatch
        obtain ⟨⟨⟨hx, ha⟩, hallA⟩, q, hq, hinner⟩ := hmatch
        rw [mem_listSplits] at hq
        obtain ⟨b, r2⟩ := q
        cases r2 with
        | nil => simp at hinner
        | cons y tld =>
            simp only [Bool.and_eq_true, decide_eq_true_eq,
              Bool.not_eq_true'] at hinner
            obtain ⟨⟨⟨⟨hy, hb⟩, hallB⟩, hlen⟩, hallC⟩ := hinner
            refine ⟨a, b, tld, ?_, ?_, ?_, hlen, hallA, hallB, hallC⟩
            · rw [← hp, ← hq]
              simp [hx, hy]
            · intro hEq; subst hEq; simp at ha
            · intro hEq; subst hEq; simp at hb
  · rintro ⟨a, b, c, rfl, ha, hb, hlen, hallA, hallB, hallC⟩
    have haE : a.isEmpty = false := by
      cases a with
      | nil => exact absurd rfl ha
      | cons _ _ => rfl
    have hbE : b.isEmpty = false := by
      cases b with
      | nil => exact absurd rfl hb
      | cons _ _ => rfl
    refine ⟨(a, '@' :: (b ++ '.' :: c)), (mem_listSplits _ _).mpr rfl, ?_⟩
    simp only [Bool.and_eq_true, decide_eq_true_eq, Bool.not_eq_true',
      List.any_eq_true]
    refine ⟨⟨⟨by trivial, haE⟩, hallA⟩, (b, '.' :: c), (mem_listSplits _ _).mpr rfl, ?_⟩
    simp only [Bool.and_eq_true, decide_eq_true_eq, Bool.not_eq_true']
    exact ⟨⟨⟨⟨by trivial, hbE⟩, hallB⟩, hlen⟩, hallC⟩





/-- C5 (amended): the listed examples behave as stated, and the format
check accepts exactly the trimmed strings decomposing as
`local ++ "@" ++ b ++ "." ++ c` with `local`, `b` nonempty, `c` of
length ≥ 2 and every part free of whitespace and `@` — i.e. at least 2
characters after SOME dot of the domain (not necessarily the last one,
since `c` may itself contain dots).  The empty-input check runs first
with its own message, and no remote call is made on any validation
failure. -/
theorem email_validation (cs : List Char) (st : FormSt) (outcome : ApiOutcome) :
    (isValidEmail "a@b.co" = true ∧ isValidEmail "" = false ∧
     isValidEmail "no-at-sign" = false ∧ isValidEmail "a@b" = false ∧
     isValidEmail "a@b." = false) ∧
    (emailMatch cs = true ↔
      ∃ a b c : List Char,
        cs = a ++ '@' :: (b ++ '.' :: c) ∧ a ≠ [] ∧ b ≠ [] ∧ 2 ≤ c.length ∧
        a.all isAtomChar = true ∧ b.all isAtomChar = true ∧
        c.all isAtomChar = true) ∧
    (jsTrim st.inputValue = "" →
      (onSubmit outcome st).2 = false ∧
      (onSubmit outcome st).1.message = "Please enter your email address." ∧
      (onSubmit outcome st).1.fieldError = true) ∧
    (jsTrim st.inputValue ≠ "" → isValidEmail (jsTrim st.inputValue) = false →
      (onSubmit outcome st).2 = false ∧
      (onSubmit outcome st).1.message = "Please enter a valid email address." ∧
      (onSubmit outcome st).1.fieldError = true) := by
  refine ⟨⟨by decide, by decide, by decide, by decide, by decide⟩,
    emailMatch_iff cs, ?_, ?_⟩
  · intro h
    refine ⟨?_, ?_, ?_⟩ <;>
      simp [onSubmit, resetState, setMessage, h]
  · intro h1 h2
    refine ⟨?_, ?_, ?_⟩ <;>
      simp [onSubmit, resetState, setMessage, h1, h2]

theorem email_validation_witness :
    jsTrim ("" : String) = "" ∧
    (onSubmit ApiOutcome.thrown (formStWith "")).2 = false ∧
    (onSubmit ApiOutcome.thrown (formStWith "")).1.message =
      "Please enter your email address." := by
  have h := (email_validation [] (formStWith "") ApiOutcome.thrown).2.2.1
    (by decide)
  exact ⟨by decide, h.1, h.2.1⟩

/-- C5, as stated, is false: the regex accepts `"a@b.cc.d"`, which has
only one character after the last dot of the domain. -/
theorem email_validation_counterexample :
    isValidEmail "a@b.cc.d" = true ∧
    specAfterLastDot "a@b.cc.d".data = ['d'] ∧
    ¬(2 ≤ (specAfterLastDot "a@b.cc.d".data).length) := by
  exact ⟨by decide, by decide, by decide⟩

/-- C6: once validation passes, every exit path of the submit handler —
success result, failure result, and a thrown/rejected remote call —
re-enables the submit control and restores its label (the `finally`
block runs on every path). -/
theorem subscribe_cleanup (st : FormSt) (outcome : ApiOutcome)
    (h1 : jsTrim st.inputValue ≠ "")
    (h2 : isValidEmail (jsTrim st.inputValue) = true) :
    (onSubmit outcome st).2 = true ∧
    (onSubmit outcome st).1.btnDisabled = false ∧
    (onSubmit outcome st).1.btnText = "Notify Me" := by
  cases outcome with
  | resolved ok msg =>
      cases ok <;>
        refine ⟨?_, ?_, ?_⟩ <;>
          simp [onSubmit, resetState, setMessage, h1, h2]
  | thrown =>
      refine ⟨?_, ?_, ?_⟩ <;>
        simp [onSubmit, resetState, setMessage, h1, h2]

theorem subscribe_cleanup_witness :
    (jsTrim (formStWith "a@b.co").inputValue ≠ "" ∧
     isValidEmail (jsTrim (formStWith "a@b.co").inputValue) = true) ∧
    (onSubmit ApiOutcome.thrown (formStWith "a@b.co")).2 = true ∧
    (onSubmit ApiOutcome.thrown (formStWith "a@b.co")).1.btnDisabled = false ∧
    (onSubmit ApiOutcome.thrown (formStWith "a@b.co")).1.btnText = "Notify Me" :=
  ⟨⟨by decide, by decide⟩,
    subscribe_cleanup (formStWith "a@b.co") ApiOutcome.thrown
      (by decide) (by decide)⟩




/- =========================================================
   Parallax theorems: lerp convergence and lifecycle safety.
   ========================================================= -/


lemma lerpIter_step (t target c0 : ℚ) (n : ℕ) :
    target - lerpIter t target c0 (n + 1) =
      (target - lerpIter t target c0 n) * (1 - t) := by
  show target - lerp (lerpIter t target c0 n) target t = _
  rw [lerp]; ring

lemma lerpIter_closed (t target c0 : ℚ) (n : ℕ) :
    target - lerpIter t target c0 n = (target - c0) * (1 - t) ^ n := by
  induction n with
  | zero => simp [lerpIter]
  | succ n ih => rw [lerpIter_step, ih, pow_succ]; ring

/-- C3: each animate frame sets `current' = current + (target − current) × 0.065`
on both axes, and for any constant target and any smoothing coefficient in
(0, 1) the iterated current value converges to the target without ever
overshooting: each step stays on the same side of the target and moves
monotonically toward it. -/
theorem parallax_lerp_convergence (t c0 target : ℚ) (h0 : 0 < t) (h1 : t < 1) :
    (∀ cur tgt : ℚ × ℚ, animateStep cur tgt =
        (cur.1 + (tgt.1 - cur.1) * 0.065, cur.2 + (tgt.2 - cur.2) * 0.065)) ∧
    (∀ n : ℕ, lerpIter t target c0 (n + 1) =
        lerpIter t target c0 n + (target - lerpIter t target c0 n) * t) ∧
    (∀ n : ℕ, |target - lerpIter t target c0 (n + 1)| ≤
        |target - lerpIter t target c0 n|) ∧
    (∀ n : ℕ, lerpIter t target c0 n ≤ target →
        lerpIter t target c0 n ≤ lerpIter t target c0 (n + 1) ∧
        lerpIter t target c0 (n + 1) ≤ target) ∧
    (∀ n : ℕ, target ≤ lerpIter t target c0 n →
        lerpIter t target c0 (n + 1) ≤ lerpIter t target c0 n ∧
        target ≤ lerpIter t target c0 (n + 1)) ∧
    (∀ ε : ℚ, 0 < ε → ∃ N : ℕ, ∀ n : ℕ, N ≤ n →
        |lerpIter t target c0 n - target| < ε) := by
  have hstep : ∀ n : ℕ, lerpIter t target c0 (n + 1) =
      lerpIter t target c0 n + (target - lerpIter t target c0 n) * t := by
    intro n
    show lerp (lerpIter t target c0 n) target t = _
    rw [lerp]
  refine ⟨fun cur tgt => rfl, hstep, ?_, ?_, ?_, ?_⟩
  · intro n
    rw [lerpIter_step, abs_mul, abs_of_nonneg (show (0:ℚ) ≤ 1 - t by linarith)]
    exact mul_le_of_le_one_right (abs_nonneg _) (by linarith)
  · intro n hn
    constructor
    · rw [hstep]; nlinarith
    · have := lerpIter_step t target c0 n
      nlinarith
  · intro n hn
    constructor
    · rw [hstep]; nlinarith
    · have := lerpIter_step t target c0 n
      nlinarith
  · intro ε hε
    by_cases hc : target - c0 = 0
    · refine ⟨0, fun n _ => ?_⟩
      have hcl := lerpIter_closed t target c0 n
      rw [hc, zero_mul] at hcl
      have hz : lerpIter t target c0 n - target = 0 := by linarith
      rw [hz]
      simpa using hε
    · have hpos : 0 < |target - c0| := abs_pos.mpr hc
      obtain ⟨N, hN⟩ := exists_pow_lt_of_lt_one
        (show (0:ℚ) < ε / |target - c0| by positivity)
        (show 1 - t < 1 by linarith)
      refine ⟨N, fun n hn => ?_⟩
      have habs : |lerpIter t target c0 n - target| =
          |target - c0| * (1 - t) ^ n := by
        rw [abs_sub_comm, lerpIter_closed, abs_mul,
          abs_of_nonneg (pow_nonneg (show (0:ℚ) ≤ 1 - t by linarith) n)]
      have hmono : (1 - t) ^ n ≤ (1 - t) ^ N :=
        pow_le_pow_of_le_one (by linarith) (by linarith) hn
      calc |lerpIter t target c0 n - target|
          = |target - c0| * (1 - t) ^ n := habs
        _ ≤ |target - c0| * (1 - t) ^ N :=
            mul_le_mul_of_nonneg_left hmono (abs_nonneg _)
        _ < |target - c0| * (ε / |target - c0|) :=
            mul_lt_mul_of_pos_left hN hpos
        _ = ε := by field_simp

theorem parallax_lerp_convergence_witness :
    ((0 : ℚ) < LERP ∧ LERP < 1) ∧
    (∀ ε : ℚ, 0 < ε → ∃ N : ℕ, ∀ n : ℕ, N ≤ n →
        |lerpIter LERP 1 0 n - 1| < ε) := by
  refine ⟨⟨by norm_num [LERP], by norm_num [LERP]⟩, ?_⟩
  exact (parallax_lerp_convergence LERP 0 1 (by norm_num [LERP])
    (by norm_num [LERP])).2.2.2.2.2

/-- C9: `destroy()` is safe in every state, including before `init` ran
or after `init` returned without starting the loop: it always succeeds,
leaves both listeners detached and no frame request pending, and is
idempotent; `init` on a depthless or touch-only environment is the
silent no-op the spec requires. -/
theorem parallax_destroy_safe (env : ParallaxEnv) (st : ParallaxSt) :
    (parallaxDestroy st).mouseListener = false ∧
    (parallaxDestroy st).resizeListener = false ∧
    (parallaxDestroy st).rafId = none ∧
    parallaxDestroy parallaxInitial = parallaxInitial ∧
    parallaxDestroy (parallaxInit env st) =
      { mouseListener := false, resizeListener := false, rafId := none } ∧
    parallaxDestroy (parallaxDestroy st) = parallaxDestroy st ∧
    (env.depthElemCount = 0 ∨ env.touchOnly = true →
      parallaxInit env st = st) := by
  refine ⟨rfl, rfl, rfl, rfl, rfl, rfl, ?_⟩
  intro h
  rcases h with h | h <;> simp [parallaxInit, h]

theorem parallax_destroy_safe_witness :
    ((⟨0, false⟩ : ParallaxEnv).depthElemCount = 0 ∨
      (⟨0, false⟩ : ParallaxEnv).touchOnly = true) ∧
    parallaxInit ⟨0, false⟩ parallaxInitial = parallaxInitial ∧
    (parallaxDestroy parallaxInitial).rafId = none :=
  ⟨Or.inl rfl,
    (parallax_destroy_safe ⟨0, false⟩ parallaxInitial).2.2.2.2.2.2 (Or.inl rfl),
    (parallax_destroy_safe ⟨0, false⟩ parallaxInitial).2.2.1⟩




/- =========================================================
   Depth coefficient and OrbInit theorems.
   ========================================================= -/


lemma parseFloat_005 : parseFloat "0.05" = JsNum.num (1 / 20) := by
  have h : parseFloatRaw "0.05".data = RawFloat.fin false 0 5 2 0 := by decide
  rw [parseFloat, parseFloatChars, h, rawToJsNum]
  norm_num

/-- C7 (amended): each frame offsets every depth-tagged element by
`current × depth × 80` pixels per axis, where `depth` is `parseFloat` of
the element's depth attribute; the 0.05 default applies exactly when the
attribute is absent or the empty string, while a present, nonempty
attribute with no parseable numeric prefix yields a NaN depth (not
0.05), which propagates to a NaN offset. -/
theorem parallax_depth_coefficient (c cX cY : ℚ) (attrs : List (Option String)) :
    depthOf none = JsNum.num (1 / 20) ∧
    depthOf (some "") = JsNum.num (1 / 20) ∧
    elemOffset c none = JsNum.num (c * (1 / 20) * 80) ∧
    (∀ (s : String) (q : ℚ), s ≠ "" → parseFloat s = JsNum.num q →
      depthOf (some s) = JsNum.num q ∧
      elemOffset c (some s) = JsNum.num (c * q * 80)) ∧
    (∀ s : String, s ≠ "" → parseFloat s = JsNum.nan →
      depthOf (some s) = JsNum.nan ∧ elemOffset c (some s) = JsNum.nan) ∧
    (∀ i : ℕ, (animateOffsets cX cY attrs)[i]? =
      (attrs[i]?).map (fun a => (elemOffset cX a, elemOffset cY a))) := by
  have hnone : depthOf none = JsNum.num (1 / 20) := parseFloat_005
  have hempty : depthOf (some "") = JsNum.num (1 / 20) := by
    simp only [depthOf, if_pos rfl]
    exact parseFloat_005
  refine ⟨hnone, hempty, ?_, ?_, ?_, ?_⟩
  · simp [elemOffset, hnone, jsMulNum]
  · intro s q hne hq
    have hd : depthOf (some s) = JsNum.num q := by
      simp only [depthOf, if_neg hne]; exact hq
    exact ⟨hd, by simp [elemOffset, hd, jsMulNum]⟩
  · intro s hne hq
    have hd : depthOf (some s) = JsNum.nan := by
      simp only [depthOf, if_neg hne]; exact hq
    exact ⟨hd, by simp [elemOffset, hd, jsMulNum]⟩
  · intro i
    simp [animateOffsets, List.getElem?_map]

/-- C7, as stated, is false: an unparseable, nonempty depth attribute
(e.g. "abc") yields depth NaN — not the claimed 0.05 default — and the
resulting per-axis offset is NaN rather than a number. -/
theorem parallax_depth_counterexample :
    depthOf (some "abc") = JsNum.nan ∧
    depthOf (some "abc") ≠ depthOf none ∧
    elemOffset 1 (some "abc") = JsNum.nan := by
  refine ⟨by decide, ?_, by decide⟩
  have h : depthOf none = JsNum.num (1 / 20) := parseFloat_005
  rw [h]
  decide

theorem parallax_depth_coefficient_witness :
    (("0.08" : String) ≠ "" ∧ parseFloat "0.08" = JsNum.num (2 / 25)) ∧
    depthOf (some "0.08") = JsNum.num (2 / 25) ∧
    elemOffset 1 (some "0.08") = JsNum.num (1 * (2 / 25) * 80) := by
  have hp : parseFloat "0.08" = JsNum.num (2 / 25) := by
    have h : parseFloatRaw "0.08".data = RawFloat.fin false 0 8 2 0 := by decide
    rw [parseFloat, parseFloatChars, h, rawToJsNum]
    norm_num
  have h2 := (parallax_depth_coefficient 1 0 0 []).2.2.2.1 "0.08" (2 / 25)
    (by decide) hp
  exact ⟨⟨by decide, hp⟩, h2.1, h2.2⟩

/- =========================================================
   OrbInit theorems.
   ========================================================= -/

lemma toFixed1_near (x : ℚ) : x - 1 / 20 < toFixed1 x ∧ toFixed1 x ≤ x + 1 / 20 := by
  unfold toFixed1
  constructor
  · have h := Int.lt_floor_add_one (10 * x + 1 / 2)
    have h2 : (10 : ℚ) * x - 1 / 2 < (⌊10 * x + 1 / 2⌋ : ℚ) := by linarith
    linarith
  · have h := Int.floor_le (10 * x + 1 / 2)
    linarith

lemma toFixed1_ge_int (x : ℚ) (z : ℤ) (h : (z : ℚ) ≤ x) : (z : ℚ) ≤ toFixed1 x := by
  unfold toFixed1
  have h1 : (10 * z : ℤ) ≤ ⌊10 * x + 1 / 2⌋ := by
    rw [Int.le_floor]
    push_cast
    linarith
  have h2 : ((10 * z : ℤ) : ℚ) ≤ (⌊10 * x + 1 / 2⌋ : ℚ) := by exact_mod_cast h1
  push_cast at h2
  linarith

lemma toFixed1_le_int (x : ℚ) (z : ℤ) (h : x < z) : toFixed1 x ≤ (z : ℚ) := by
  unfold toFixed1
  have h1 : ⌊10 * x + 1 / 2⌋ < 10 * z + 1 := by
    rw [Int.floor_lt]
    push_cast
    linarith
  have h1b : ⌊10 * x + 1 / 2⌋ ≤ 10 * z := by omega
  have h2 : (⌊10 * x + 1 / 2⌋ : ℚ) ≤ ((10 * z : ℤ) : ℚ) := by exact_mod_cast h1b
  push_cast at h2
  linarith

/-- C8 (amended): for legal `Math.random()` draws the sampled duration
lies in [10, 26) and the sampled delay in [0, 12); both are rounded to
one decimal (`toFixed(1)`) before being applied, so the applied duration
lies in [10, 26] — it can equal 26.0 — and the applied delay is exactly
the negation of the ROUNDED sampled delay, lying in [-12, 0] and within
1/20 of the negated sample. -/
theorem orb_timing (r1 r2 : ℚ) (h10 : 0 ≤ r1) (h11 : r1 < 1)
    (h20 : 0 ≤ r2) (h21 : r2 < 1) :
    (10 ≤ randBetween r1 10 26 ∧ randBetween r1 10 26 < 26) ∧
    (0 ≤ randBetween r2 0 12 ∧ randBetween r2 0 12 < 12) ∧
    (orbApply r1 r2).duration = toFixed1 (randBetween r1 10 26) ∧
    (orbApply r1 r2).delay = -(toFixed1 (randBetween r2 0 12)) ∧
    (10 ≤ (orbApply r1 r2).duration ∧ (orbApply r1 r2).duration ≤ 26) ∧
    (-12 ≤ (orbApply r1 r2).delay ∧ (orbApply r1 r2).delay ≤ 0) ∧
    |(orbApply r1 r2).duration - randBetween r1 10 26| ≤ 1 / 20 ∧
    |(orbApply r1 r2).delay + randBetween r2 0 12| ≤ 1 / 20 := by
  have hs1 : randBetween r1 10 26 = r1 * 16 + 10 := by
    unfold randBetween; ring
  have hs2 : randBetween r2 0 12 = r2 * 12 := by
    unfold randBetween; ring
  have hd1 : 10 ≤ randBetween r1 10 26 := by rw [hs1]; nlinarith
  have hd2 : randBetween r1 10 26 < 26 := by rw [hs1]; nlinarith
  have he1 : 0 ≤ randBetween r2 0 12 := by rw [hs2]; nlinarith
  have he2 : randBetween r2 0 12 < 12 := by rw [hs2]; nlinarith
  have hdur : (orbApply r1 r2).duration = toFixed1 (randBetween r1 10 26) := rfl
  have hdel : (orbApply r1 r2).delay = -(toFixed1 (randBetween r2 0 12)) := rfl
  have hlo : (10 : ℚ) ≤ toFixed1 (randBetween r1 10 26) := by
    have := toFixed1_ge_int (randBetween r1 10 26) 10 (by exact_mod_cast hd1)
    exact_mod_cast this
  have hhi : toFixed1 (randBetween r1 10 26) ≤ (26 : ℚ) := by
    have := toFixed1_le_int (randBetween r1 10 26) 26 (by exact_mod_cast hd2)
    exact_mod_cast this
  have hdlo : (0 : ℚ) ≤ toFixed1 (randBetween r2 0 12) := by
    have := toFixed1_ge_int (randBetween r2 0 12) 0 (by exact_mod_cast he1)
    exact_mod_cast this
  have hdhi : toFixed1 (randBetween r2 0 12) ≤ (12 : ℚ) := by
    have := toFixed1_le_int (randBetween r2 0 12) 12 (by exact_mod_cast he2)
    exact_mod_cast this
  have hn1 := toFixed1_near (randBetween r1 10 26)
  have hn2 := toFixed1_near (randBetween r2 0 12)
  refine ⟨⟨hd1, hd2⟩, ⟨he1, he2⟩, hdur, hdel, ⟨?_, ?_⟩, ⟨?_, ?_⟩, ?_, ?_⟩
  · rw [hdur]; exact hlo
  · rw [hdur]; exact hhi
  · rw [hdel]; linarith
  · rw [hdel]; linarith
  · rw [hdur, abs_le]
    exact ⟨by linarith [hn1.1], by linarith [hn1.2]⟩
  · rw [hdel, abs_le]
    exact ⟨by linarith [hn2.2], by linarith [hn2.1]⟩

/-- C8, as stated, is false: with the legal draw r1 = 1597/1600 the
sampled duration is 25.97 s but the applied (toFixed-rounded) duration
is 26.0 s, outside [10, 26); and with r2 = 1/96 the sampled delay is
0.125 s while the applied delay is −0.1 s, not the exact negation of the
sample. -/
theorem orb_timing_counterexample :
    ((0 : ℚ) ≤ 1597 / 1600 ∧ (1597 / 1600 : ℚ) < 1 ∧
     (0 : ℚ) ≤ 1 / 96 ∧ (1 / 96 : ℚ) < 1) ∧
    randBetween (1597 / 1600) 10 26 = 2597 / 100 ∧
    (orbApply (1597 / 1600) (1 / 96)).duration = 26 ∧
    ¬((orbApply (1597 / 1600) (1 / 96)).duration < 26) ∧
    randBetween (1 / 96) 0 12 = 1 / 8 ∧
    (orbApply (1597 / 1600) (1 / 96)).delay = -(1 / 10) ∧
    (orbApply (1597 / 1600) (1 / 96)).delay ≠ -(randBetween (1 / 96) 0 12) := by
  have hdur : (orbApply (1597 / 1600) (1 / 96)).duration = 26 := by
    show toFixed1 (randBetween (1597 / 1600) 10 26) = 26
    rw [randBetween, toFixed1]
    norm_num [Int.floor_eq_iff]
  have hdel : (orbApply (1597 / 1600) (1 / 96)).delay = -(1 / 10) := by
    show -(toFixed1 (randBetween (1 / 96) 0 12)) = -(1 / 10)
    rw [randBetween, toFixed1]
    norm_num [Int.floor_eq_iff]
  refine ⟨⟨by norm_num, by norm_num, by norm_num, by norm_num⟩, ?_, hdur, ?_, ?_, hdel, ?_⟩
  · rw [randBetween]; norm_num
  · rw [hdur]; norm_num
  · rw [randBetween]; norm_num
  · rw [hdel, randBetween]; norm_num

theorem orb_timing_witness :
    ((0 : ℚ) ≤ 1 / 2 ∧ (1 / 2 : ℚ) < 1) ∧
    (10 ≤ randBetween (1 / 2) 10 26 ∧ randBetween (1 / 2) 10 26 < 26) ∧
    (10 ≤ (orbApply (1 / 2) (1 / 2)).duration ∧
      (orbApply (1 / 2) (1 / 2)).duration ≤ 26) := by
  have h := orb_timing (1 / 2) (1 / 2) (by norm_num) (by norm_num)
    (by norm_num) (by norm_num)
  exact ⟨⟨by norm_num, by norm_num⟩, h.1, h.2.2.2.2.1⟩



end Nebula
